import Mathlib

/-!
Verification of the meatlaunch attribution webhook handlers.

Shallow embedding of the three handlers of this repository:
the payment webhook handler of api/recurly-webhook.js (first variant),
the subscription webhook handler of src/unnamed/part_000 (identical in
structure to the second variant of api/recurly-webhook.js), and the
signup-intake handler of api/start-signup.js.

Database reads and writes go through a generic CRUD client that never
throws: each call yields a data value and an error value.  The embedding
passes the error outcomes of each call explicitly in an environment
record, records every database operation in an ordered trace, and keeps
the signup-attempts table as an explicit list.  The external billing API
is an oracle from requests to responses; every outbound request is
recorded so that the resolution strategy sequence is observable.
Timestamps are integers (epoch milliseconds); the source compares ISO
8601 strings, whose lexicographic order agrees with chronological order
for the fixed format produced by toISOString.
-/

namespace Meatlaunch

/-! ### JavaScript truthiness on optional strings

The source chains field accesses with the JS or-operator, under which
the empty string, null and undefined are all falsy. -/

/-- JS coercion of an optional string by truthiness: an absent value or
the empty string becomes none, as in the source idiom value-or-null. -/
def jsStr : Option String → Option String
  | some s => if s = "" then none else some s
  | none => none

/-- JS or-chain on optional strings: first truthy operand wins. -/
def jsOr (a b : Option String) : Option String :=
  match jsStr a with
  | some s => some s
  | none => jsStr b

/-! ### Data model: signup attempts -/

/-- A row of the signup_attempts table. -/
structure SignupAttempt where
  id : Nat
  shop_id : String
  employee_code : String
  email : String
  status : String
  created_at : Int
  completed_at : Option Int
  recurly_event_id : Option String
  recurly_invoice_id : Option String
  recurly_transaction_id : Option String
  recurly_subscription_id : Option String
  amount : Option Int
  currency : Option String
deriving DecidableEq, Repr

/-! ### Data model: resolved payment resource (Recurly transaction) -/

/-- Billing-info sub-object of a Recurly resource. -/
structure BillingInfo where
  email : Option String
deriving DecidableEq, Repr

/-- Account sub-object of a Recurly transaction. -/
structure Account where
  email : Option String
  billing_info : Option BillingInfo
deriving DecidableEq, Repr

/-- Subscription reference nested in a transaction or invoice. -/
structure SubRef where
  id : Option String
deriving DecidableEq, Repr

/-- Invoice reference nested in a transaction. -/
structure InvoiceRef where
  id : Option String
  subscription : Option SubRef
deriving DecidableEq, Repr

/-- A Recurly transaction, the resolved payment resource. -/
structure Payment where
  id : Option String
  account : Option Account
  billing_info : Option BillingInfo
  invoice : Option InvoiceRef
  subscription : Option SubRef
  amount : Option Int
  currency : Option String
deriving DecidableEq, Repr

/-- Email extraction of the payment handler, lines 128 to 132: the JS
or-chain over account email, account billing-info email and top-level
billing-info email, with null as the final fallback. -/
def extractEmail (p : Payment) : Option String :=
  jsOr (p.account.bind Account.email)
    (jsOr ((p.account.bind Account.billing_info).bind BillingInfo.email)
      (p.billing_info.bind BillingInfo.email))

/-! ### The Recurly v3 API helper and the payment resolver -/

/-- Authentication scheme of an outbound API request.  The source only
ever uses basic auth with the API key as username and blank password;
bearer is listed because the spec speaks of an alternate scheme. -/
inductive AuthScheme where
  | basic
  | bearer
deriving DecidableEq, Repr

/-- One outbound GET request against the billing API. -/
structure ApiRequest where
  path : String
  auth : AuthScheme
deriving DecidableEq, Repr

/-- Parsed body of the transactions listing endpoint. -/
structure TxnList where
  data : Option (List Payment)
deriving DecidableEq, Repr

/-- An API response: HTTP status and the parsed JSON content, none when
the body is not JSON of the expected shape. -/
structure ApiResponse where
  status : Nat
  content : Option TxnList
deriving DecidableEq, Repr

/-- The fetch response ok flag: status in the 2xx range. -/
def respOk (r : ApiResponse) : Bool :=
  decide (200 ≤ r.status) && decide (r.status < 300)

/-- recurlyFetch of api/recurly-webhook.js, lines 32 to 53: one GET with
basic auth; any non-ok status or unparsable body throws.  Returns the
outcome together with the list of requests issued. -/
def recurlyFetch (net : ApiRequest → ApiResponse) (path : String) :
    Except String TxnList × List ApiRequest :=
  if respOk (net ⟨path, AuthScheme.basic⟩) then
    match (net ⟨path, AuthScheme.basic⟩).content with
    | some j => (Except.ok j, [⟨path, AuthScheme.basic⟩])
    | none => (Except.error "JSON parse error", [⟨path, AuthScheme.basic⟩])
  else
    (Except.error ("Recurly API " ++ toString (net ⟨path, AuthScheme.basic⟩).status),
      [⟨path, AuthScheme.basic⟩])

/-- The resolver stage of the payment handler, lines 103 to 123: query
the transactions endpoint by uuid, take the first element of the data
array, fail when the array is absent or empty. -/
def resolvePayment (net : ApiRequest → ApiResponse) (uuidStr : String) :
    Except String Payment × List ApiRequest :=
  match recurlyFetch net ("/api/v2021-02-25/transactions?uuid=" ++ uuidStr) with
  | (Except.error e, reqs) => (Except.error e, reqs)
  | (Except.ok txns, reqs) =>
    match txns.data with
    | some l =>
      match l.head? with
      | some txn => (Except.ok txn, reqs)
      | none => (Except.error ("No transaction found for uuid " ++ uuidStr), reqs)
    | none => (Except.error ("No transaction found for uuid " ++ uuidStr), reqs)

/-! ### The attribution matcher -/

/-- The lookback window: 6 hours in milliseconds. -/
def WINDOW_MS : Int := 6 * 60 * 60 * 1000

/-- The filter of the attempt query, lines 158 to 160: same email, still
pending, created at or after the cutoff (the created-at filter is gte,
hence inclusive). -/
def eligibleB (e : String) (cutoff : Int) (r : SignupAttempt) : Bool :=
  r.email == e && r.status == "PENDING" && decide (cutoff ≤ r.created_at)

/-- Pick the later-created of two attempts, keeping the first on ties. -/
def laterOf (a b : SignupAttempt) : SignupAttempt :=
  if a.created_at < b.created_at then b else a

/-- Order by created_at descending and take the first, lines 161 to 163. -/
def pickLatest : List SignupAttempt → Option SignupAttempt
  | [] => none
  | x :: xs => some (xs.foldl laterOf x)

/-- The attribution matcher, lines 152 to 163: the most recent pending
attempt for the given email within the lookback window. -/
def matchAttempt (db : List SignupAttempt) (e : String) (now : Int) :
    Option SignupAttempt :=
  pickLatest (db.filter (eligibleB e (now - WINDOW_MS)))

/-! ### The state-transition writer -/

/-- The update payload of lines 176 to 188: mark PAID and record the
provenance identifiers, the event uuid among them. -/
def markPaidRow (now : Int) (eventUuid invoiceId transactionId subscriptionId :
    Option String) (amount : Option Int) (currency : Option String)
    (a : SignupAttempt) : SignupAttempt :=
  { a with
    status := "PAID"
    completed_at := some now
    recurly_event_id := eventUuid
    recurly_invoice_id := invoiceId
    recurly_transaction_id := transactionId
    recurly_subscription_id := subscriptionId
    amount := amount
    currency := currency }

/-- Apply an update keyed by record id, as the eq-id filter of line 188. -/
def applyUpdate (db : List SignupAttempt) (targetId : Nat)
    (f : SignupAttempt → SignupAttempt) : List SignupAttempt :=
  db.map fun r => if r.id = targetId then f r else r

/-! ### Database operation trace -/

/-- A row of the subscriptions table as built by the upsert of the
subscription handler. -/
structure SubRow where
  provider : String
  provider_subscription_id : String
  account_code : Option String
  email : String
  plan_code : String
  shop_id : Option String
  status : String
  current_period_end : Option String
  updated_at : Int
deriving DecidableEq, Repr

/-- One database operation, recorded in order of execution. -/
inductive DbOp where
  | dedupeSelect (eventId : String)
  | attemptSelect (email : String) (cutoff : Int)
  | attemptUpdate (id : Nat)
  | webhookEventInsert
  | shopSelect (planCode : String)
  | subscriptionUpsert (row : SubRow)
deriving DecidableEq, Repr

/-- Recognizer for the subscription upsert operation. -/
def DbOp.isUpsert : DbOp → Bool
  | DbOp.subscriptionUpsert _ => true
  | _ => false

/-! ### The payment webhook handler -/

/-- HTTP method of an inbound request. -/
inductive Method where
  | get
  | post
  | options
  | head
  | other (s : String)
deriving DecidableEq, Repr

/-- The Recurly short payload, lines 80 to 84. -/
structure Payload where
  uuid : Option String
  object_type : Option String
  id : Option String
  event_type : Option String
deriving DecidableEq, Repr

/-- Environment of one payment-handler invocation: the current
signup_attempts table, the error outcome of each database call, the
billing-API oracle, and the current time. -/
structure PEnv where
  db : List SignupAttempt
  dedupeErr : Option String
  net : ApiRequest → ApiResponse
  attemptErr : Option String
  updErr : Option String
  now : Int

/-- Outcome of one payment-handler invocation: HTTP status and body,
the signup_attempts table after the call, the ordered database
operation trace, and the warnings and errors logged. -/
structure POut where
  status : Nat
  body : String
  db : List SignupAttempt
  ops : List DbOp
  logs : List String
deriving DecidableEq, Repr

/-- Interpolation of the uuid field into the transactions query path:
an absent field stringifies to undefined in a JS template literal. -/
def uuidPathArg : Option String → String
  | some s => s
  | none => "undefined"

/-- The pipeline of the payment handler after the dedupe stage, lines 98
to 197: event-kind filter, resolver, email extraction, attribution
lookup, state-transition write.  ops0 and logs0 carry what the dedupe
stage already recorded. -/
def processPayment (env : PEnv) (p : Payload) (ops0 : List DbOp)
    (logs0 : List String) : POut :=
  if jsStr p.object_type ≠ some "payment" ∨ jsStr p.event_type ≠ some "succeeded" ∨
      jsStr p.id = none then
    ⟨200, "ok (ignored)", env.db, ops0, logs0⟩
  else
    match (resolvePayment env.net (uuidPathArg p.uuid)).1 with
    | Except.error _ =>
      ⟨200, "ok (payment fetch failed)", env.db, ops0,
        logs0 ++ ["Failed to fetch payment details:"]⟩
    | Except.ok pay =>
      match extractEmail pay with
      | none =>
        ⟨200, "ok (no email)", env.db, ops0,
          logs0 ++ ["Could not determine email from payment; cannot attribute."]⟩
      | some email =>
        match env.attemptErr with
        | some _ =>
          ⟨200, "ok (attempt lookup failed)", env.db,
            ops0 ++ [DbOp.attemptSelect email (env.now - WINDOW_MS)],
            logs0 ++ ["Attempt lookup error:"]⟩
        | none =>
          match matchAttempt env.db email env.now with
          | none =>
            ⟨200, "ok (no matching attempt)", env.db,
              ops0 ++ [DbOp.attemptSelect email (env.now - WINDOW_MS)],
              logs0 ++ ["No matching pending attempt found for email:"]⟩
          | some attempt =>
            match env.updErr with
            | some _ =>
              ⟨200, "ok (update failed)", env.db,
                ops0 ++ [DbOp.attemptSelect email (env.now - WINDOW_MS),
                  DbOp.attemptUpdate attempt.id],
                logs0 ++ ["Supabase update error:"]⟩
            | none =>
              ⟨200, "ok",
                applyUpdate env.db attempt.id
                  (markPaidRow env.now (jsStr p.uuid)
                    (jsStr (pay.invoice.bind InvoiceRef.id))
                    (jsOr pay.id p.id)
                    (jsOr (pay.subscription.bind SubRef.id)
                      ((pay.invoice.bind InvoiceRef.subscription).bind SubRef.id))
                    pay.amount pay.currency),
                ops0 ++ [DbOp.attemptSelect email (env.now - WINDOW_MS),
                  DbOp.attemptUpdate attempt.id],
                logs0 ++ ["Marked signup_attempt PAID:"]⟩

/-- The payment webhook handler of api/recurly-webhook.js, lines 55 to
197.  The body argument is the JSON parse outcome of the raw body: none
when the body is not valid JSON. -/
def paymentHandler (env : PEnv) (m : Method) (body : Option Payload) : POut :=
  match m with
  | Method.options => ⟨200, "", env.db, [], []⟩
  | Method.get => ⟨200, "OK (GET) - recurly webhook endpoint alive", env.db, [], []⟩
  | Method.post =>
    match body with
    | none => ⟨400, "invalid json", env.db, [], ["Webhook JSON parse error:"]⟩
    | some p =>
      match jsStr p.uuid with
      | some u =>
        match env.dedupeErr with
        | some _ =>
          processPayment env p [DbOp.dedupeSelect u] ["Dedupe lookup error:"]
        | none =>
          match env.db.find? (fun r => r.recurly_event_id == some u) with
          | some _ => ⟨200, "ok (duplicate)", env.db, [DbOp.dedupeSelect u], []⟩
          | none => processPayment env p [DbOp.dedupeSelect u] []
      | none => processPayment env p [] []
  | _ => ⟨405, "Method Not Allowed", env.db, [], []⟩

/-! ### The subscription webhook handler (src/unnamed/part_000) -/

/-- bill_to sub-object of a subscription account. -/
structure BillTo where
  email : Option String
deriving DecidableEq, Repr

/-- Account sub-object of a Recurly subscription. -/
structure SubAccount where
  email : Option String
  bill_to : Option BillTo
  code : Option String
deriving DecidableEq, Repr

/-- Plan sub-object of a Recurly subscription. -/
structure PlanRef where
  code : Option String
deriving DecidableEq, Repr

/-- A Recurly subscription resource. -/
structure Subscription where
  uuid : Option String
  plan : Option PlanRef
  state : Option String
  status : Option String
  current_period_ends_at : Option String
  current_term_ends_at : Option String
  account : Option SubAccount
deriving DecidableEq, Repr

/-- A row of the shops table: tenant id keyed by plan code. -/
structure Shop where
  id : String
  plan_code : String
deriving DecidableEq, Repr

/-- The slim subscription webhook payload. -/
structure SubPayload where
  event_type : Option String
  type : Option String
  id : Option String
  event_id : Option String
  uuid : Option String
deriving DecidableEq, Repr

/-- Environment of one subscription-handler invocation: whether the two
Supabase environment variables are present, the shops table and whether
its lookup errors (a CRUD error leaves the data value null), the
outcome of the Recurly subscription fetch, the upsert error outcome,
and the current time. -/
structure SEnv where
  envOk : Bool
  shops : List Shop
  shopLookupFails : Bool
  subFetch : Except String Subscription
  upsertErr : Option String
  now : Int

/-- Outcome of one subscription-handler invocation. -/
structure SOut where
  status : Nat
  body : String
  ops : List DbOp
  logs : List String
deriving DecidableEq, Repr

/-- The subscription webhook handler of src/unnamed/part_000, lines 32
to 132.  debugUuid models the debug_uuid query parameter of the GET
debug endpoint; body is none when req.body is not an object (the source
then substitutes the empty payload). -/
def subHandler (env : SEnv) (m : Method) (debugUuid : Option String)
    (body : Option SubPayload) : SOut :=
  if m = Method.get ∧ debugUuid ≠ none then
    match env.subFetch with
    | Except.ok _ => ⟨200, "debug ok", [], []⟩
    | Except.error e => ⟨200, "debug error: " ++ e, [], []⟩
  else if m = Method.get ∨ m = Method.head then ⟨200, "ok-v3", [], []⟩
  else if m ≠ Method.post then ⟨200, "ok-v3", [], []⟩
  else if env.envOk = false then ⟨500, "Missing Supabase env vars", [], []⟩
  else
    match jsStr ((body.getD ⟨none, none, none, none, none⟩).uuid) with
    | none => ⟨200, "ok", [DbOp.webhookEventInsert], []⟩
    | some subUuid =>
      match env.subFetch with
      | Except.error e =>
        ⟨200, "ok", [DbOp.webhookEventInsert], ["### WEBHOOK_ERROR " ++ e]⟩
      | Except.ok sub =>
        match jsStr (sub.plan.bind PlanRef.code) with
        | none =>
          ⟨200, "ok", [DbOp.webhookEventInsert],
            ["### SKIP_UPSERT missing provider_subscription_id/email/plan_code"]⟩
        | some pc =>
          match jsOr sub.uuid (some subUuid),
              jsOr (sub.account.bind SubAccount.email)
                ((sub.account.bind SubAccount.bill_to).bind BillTo.email) with
          | some psidV, some emailV =>
            match env.upsertErr with
            | some e =>
              ⟨200, "ok",
                [DbOp.webhookEventInsert, DbOp.shopSelect pc,
                  DbOp.subscriptionUpsert
                    ⟨"recurly", psidV, jsStr (sub.account.bind SubAccount.code),
                      emailV, pc,
                      jsStr ((if env.shopLookupFails then none
                        else env.shops.find? (fun s => s.plan_code == pc)).map Shop.id),
                      (jsOr (jsOr sub.state sub.status) (some "active")).getD "active",
                      jsOr sub.current_period_ends_at sub.current_term_ends_at,
                      env.now⟩],
                ["### UPSERT_ERROR " ++ e]⟩
            | none =>
              ⟨200, "ok",
                [DbOp.webhookEventInsert, DbOp.shopSelect pc,
                  DbOp.subscriptionUpsert
                    ⟨"recurly", psidV, jsStr (sub.account.bind SubAccount.code),
                      emailV, pc,
                      jsStr ((if env.shopLookupFails then none
                        else env.shops.find? (fun s => s.plan_code == pc)).map Shop.id),
                      (jsOr (jsOr sub.state sub.status) (some "active")).getD "active",
                      jsOr sub.current_period_ends_at sub.current_term_ends_at,
                      env.now⟩],
                ["### UPSERT_OK"]⟩
          | _, _ =>
            ⟨200, "ok", [DbOp.webhookEventInsert, DbOp.shopSelect pc],
              ["### SKIP_UPSERT missing provider_subscription_id/email/plan_code"]⟩

/-! ### The signup-intake handler (api/start-signup.js) -/

/-- Request body of the signup-intake endpoint. -/
structure StartBody where
  shopId : Option String
  employeeCode : Option String
  email : Option String
deriving DecidableEq, Repr

/-- The row inserted into signup_attempts by the intake endpoint. -/
structure InsertRow where
  shop_id : String
  employee_code : String
  email : String
  status : String
deriving DecidableEq, Repr

/-- The signup-intake handler of api/start-signup.js (POST path): guard
the three required fields by truthiness, then insert a PENDING row with
the submitted values verbatim.  Returns the HTTP status and the row
inserted, none when nothing was inserted. -/
def startSignup (body : Option StartBody) (insertErr : Option String) :
    Nat × Option InsertRow :=
  let b := body.getD ⟨none, none, none⟩
  match jsStr b.shopId, jsStr b.employeeCode, jsStr b.email with
  | some s, some c, some e =>
    match insertErr with
    | some _ => (500, none)
    | none => (200, some ⟨s, c, e, "PENDING"⟩)
  | _, _, _ => (400, none)

/-! ### Concrete fixtures for witnesses and counterexamples -/

/-- A pending signup attempt with a lower-case email. -/
def attemptA : SignupAttempt :=
  ⟨1, "shop1", "emp7", "user@example.com", "PENDING", 1000,
    none, none, none, none, none, none, none⟩

/-- A later pending signup attempt for the same email. -/
def attemptB : SignupAttempt :=
  ⟨2, "shop1", "emp7", "user@example.com", "PENDING", 2000,
    none, none, none, none, none, none, none⟩

/-- A signup attempt already paid with event uuid evt1 recorded. -/
def attemptPaid : SignupAttempt :=
  ⟨3, "shop1", "emp7", "user@example.com", "PAID", 500, some 600,
    some "evt1", none, some "txn0", none, some 999, some "USD"⟩

/-- A resolved payment whose account email carries stray spaces and
upper-case letters. -/
def paymentMixedCase : Payment :=
  ⟨some "txn1", some ⟨some " User@Example.com ", none⟩, none, none, none,
    some 999, some "USD"⟩

/-- The same payment with the email already lower-case and trimmed. -/
def paymentLowerCase : Payment :=
  ⟨some "txn1", some ⟨some "user@example.com", none⟩, none, none, none,
    some 999, some "USD"⟩

/-- A network oracle answering every request with the given payment. -/
def netOf (p : Payment) : ApiRequest → ApiResponse :=
  fun _ => ⟨200, some ⟨some [p]⟩⟩

/-- A network oracle answering every request with status 401. -/
def net401 : ApiRequest → ApiResponse := fun _ => ⟨401, none⟩

/-- A successful payment short payload with event uuid evt1. -/
def payloadA : Payload := ⟨some "evt1", some "payment", some "pay1", some "succeeded"⟩

/-- Payment-handler environment with one pending attempt and a network
resolving to the given payment. -/
def envOf (p : Payment) : PEnv := ⟨[attemptA], none, netOf p, none, none, 3000⟩

/-- Environment whose table already records event uuid evt1. -/
def envDup : PEnv := ⟨[attemptPaid], none, netOf paymentLowerCase, none, none, 3000⟩

/-- Environment whose dedupe lookup fails with a read error. -/
def envDedupeErr : PEnv :=
  ⟨[attemptA], some "read failed", netOf paymentLowerCase, none, none, 3000⟩

/-- A subscription webhook payload with uuid subuuid1. -/
def subPayloadA : SubPayload :=
  ⟨some "updated", none, some "ev9", none, some "subuuid1"⟩

/-- Subscription-handler environment missing the Supabase variables. -/
def sEnvNoConfig : SEnv := ⟨false, [], false, Except.error "unused", none, 0⟩

/-- A subscription resource whose plan has no code. -/
def subNoPlan : Subscription :=
  ⟨some "su1", some ⟨none⟩, some "active", none, none, none,
    some ⟨some "user@example.com", none, some "acct1"⟩⟩

/-- Environment resolving to the plan-less subscription. -/
def sEnvNoPlan : SEnv := ⟨true, [], false, Except.ok subNoPlan, none, 99⟩

/-- A fully identified subscription resource with plan code plan9. -/
def subFull : Subscription :=
  ⟨some "su1", some ⟨some "plan9"⟩, some "active", none, some "2026-01-01", none,
    some ⟨some "user@example.com", none, some "acct1"⟩⟩

/-- Environment resolving the full subscription with an empty shops table. -/
def sEnvNoShop : SEnv := ⟨true, [], false, Except.ok subFull, none, 99⟩

/-! ### Helper lemmas about the matcher -/

/-- The left fold with laterOf stays among the candidates. -/
lemma foldl_laterOf_mem (xs : List SignupAttempt) (x : SignupAttempt) :
    xs.foldl laterOf x ∈ x :: xs := by
  induction xs generalizing x with
  | nil => simp
  | cons y ys ih =>
    simp only [List.foldl_cons]
    rcases List.mem_cons.mp (ih (laterOf x y)) with h | h
    · rw [h]
      unfold laterOf
      split <;> simp
    · simp [h]

/-- pickLatest returns an element of its input list. -/
lemma pickLatest_mem {l : List SignupAttempt} {r : SignupAttempt}
    (h : pickLatest l = some r) : r ∈ l := by
  cases l with
  | nil => simp [pickLatest] at h
  | cons x xs =>
    simp only [pickLatest, Option.some.injEq] at h
    exact h ▸ foldl_laterOf_mem xs x

/-- A matched attempt is in the table and satisfies the query filter. -/
lemma matchAttempt_mem {db : List SignupAttempt} {e : String} {now : Int}
    {r : SignupAttempt} (h : matchAttempt db e now = some r) :
    r ∈ db ∧ eligibleB e (now - WINDOW_MS) r = true := by
  unfold matchAttempt at h
  exact List.mem_filter.mp (pickLatest_mem h)

/-! ### Helper lemmas about the payment pipeline -/

/-- Every branch of the post-dedupe pipeline answers 200. -/
lemma processPayment_status (env : PEnv) (p : Payload) (ops0 : List DbOp)
    (logs0 : List String) : (processPayment env p ops0 logs0).status = 200 := by
  unfold processPayment
  split
  · rfl
  · split
    · rfl
    · split
      · rfl
      · split
        · rfl
        · split
          · rfl
          · split
            · rfl
            · rfl

/-- No branch of the post-dedupe pipeline produces the duplicate body. -/
lemma processPayment_body_ne_dup (env : PEnv) (p : Payload) (ops0 : List DbOp)
    (logs0 : List String) :
    (processPayment env p ops0 logs0).body ≠ "ok (duplicate)" := by
  unfold processPayment
  split
  · simp
  · split
    · simp
    · split
      · simp
      · split
        · simp
        · split
          · simp
          · split
            · simp
            · simp

/-- The post-dedupe pipeline only appends to the log accumulator. -/
lemma processPayment_logs_sub (env : PEnv) (p : Payload) (ops0 : List DbOp)
    (logs0 : List String) (x : String) (hx : x ∈ logs0) :
    x ∈ (processPayment env p ops0 logs0).logs := by
  unfold processPayment
  split
  · simpa using hx
  · split
    · simp [hx]
    · split
      · simp [hx]
      · split
        · simp [hx]
        · split
          · simp [hx]
          · split
            · simp [hx]
            · simp [hx]

/-- The post-dedupe pipeline never inserts into webhook_events. -/
lemma processPayment_no_audit (env : PEnv) (p : Payload) (ops0 : List DbOp)
    (logs0 : List String) (h0 : DbOp.webhookEventInsert ∉ ops0) :
    DbOp.webhookEventInsert ∉ (processPayment env p ops0 logs0).ops := by
  unfold processPayment
  split
  · simpa using h0
  · split
    · simpa using h0
    · split
      · simpa using h0
      · split
        · simp [h0]
        · split
          · simp [h0]
          · split
            · simp [h0]
            · simp [h0]

/-- If the post-dedupe pipeline answers with body ok, the table after
the call is the table before with some matched attempt marked paid, the
event uuid of the short payload recorded on it. -/
lemma processPayment_ok (env : PEnv) (p : Payload) (ops0 : List DbOp)
    (logs0 : List String) :
    (processPayment env p ops0 logs0).body = "ok" →
    ∃ a, a ∈ env.db ∧ ∃ i t s am c,
      (processPayment env p ops0 logs0).db =
        applyUpdate env.db a.id
          (markPaidRow env.now (jsStr p.uuid) i t s am c) := by
  unfold processPayment
  split
  · intro h; simp at h
  · split
    · intro h; simp at h
    · split
      · intro h; simp at h
      · split
        · intro h; simp at h
        · split
          · intro h; simp at h
          · rename_i attempt hma
            split
            · intro h; simp at h
            · intro _
              exact ⟨attempt, (matchAttempt_mem hma).1, _, _, _, _, _, rfl⟩

/-- Truthiness coercion of an absent value is absent. -/
lemma jsStr_none : jsStr none = none := rfl

/-! ### Helper lemmas about the resolver -/

/-- One call of the API helper issues exactly one request, on the given
path, with basic auth. -/
lemma recurlyFetch_trace (net : ApiRequest → ApiResponse) (path : String) :
    (recurlyFetch net path).2 = [⟨path, AuthScheme.basic⟩] := by
  unfold recurlyFetch
  split
  · split <;> rfl
  · rfl

/-- A non-ok status makes the API helper fail. -/
lemma recurlyFetch_err (net : ApiRequest → ApiResponse) (path : String)
    (h : respOk (net ⟨path, AuthScheme.basic⟩) = false) :
    (recurlyFetch net path).1 =
      Except.error ("Recurly API " ++ toString (net ⟨path, AuthScheme.basic⟩).status) := by
  unfold recurlyFetch
  simp [h]

/-- One payment resolution issues exactly one request: the transactions
query by uuid, with basic auth. -/
lemma resolvePayment_trace (net : ApiRequest → ApiResponse) (uuidStr : String) :
    (resolvePayment net uuidStr).2 =
      [⟨"/api/v2021-02-25/transactions?uuid=" ++ uuidStr, AuthScheme.basic⟩] := by
  unfold resolvePayment
  split
  · rename_i e reqs heq
    have h2 := recurlyFetch_trace net ("/api/v2021-02-25/transactions?uuid=" ++ uuidStr)
    rw [heq] at h2
    simpa using h2
  · rename_i txns reqs heq
    have h2 := recurlyFetch_trace net ("/api/v2021-02-25/transactions?uuid=" ++ uuidStr)
    rw [heq] at h2
    split
    · split
      · simpa using h2
      · simpa using h2
    · simpa using h2

/-! ### Claim theorems -/

/-- Claim C5 (confirmed).  Window boundary of the attribution matcher: a
pending record created exactly at asOf minus 6 hours is eligible, since
the created-at filter is an inclusive gte, while one created strictly
before that cutoff is not eligible. -/
theorem window_boundary (r : SignupAttempt) (e : String) (now : Int)
    (he : r.email = e) (hs : r.status = "PENDING") :
    (r.created_at = now - WINDOW_MS → matchAttempt [r] e now = some r) ∧
    (r.created_at < now - WINDOW_MS → matchAttempt [r] e now = none) := by
  constructor
  · intro hc
    have hle : now - WINDOW_MS ≤ r.created_at := le_of_eq hc.symm
    simp [matchAttempt, eligibleB, he, hs, hle, pickLatest]
  · intro hc
    have hnle : ¬ (now - WINDOW_MS ≤ r.created_at) := by omega
    simp [matchAttempt, eligibleB, he, hs, hnle, pickLatest]

/-- Witness for the window-boundary theorem at a concrete record whose
creation time sits exactly on the cutoff. -/
theorem window_boundary_witness :
    matchAttempt [attemptA] "user@example.com" (1000 + WINDOW_MS) = some attemptA :=
  (window_boundary attemptA "user@example.com" (1000 + WINDOW_MS) rfl rfl).1 (by decide)

/-- Claim C6 (confirmed).  Most-recent-wins: for two pending records
with the same email, both inside the lookback window and created at
t1 strictly before t2, a payment arriving after t2 attributes to the
record created at t2 — the matcher orders candidates by created_at
descending and takes the first, whichever order the table returns. -/
theorem most_recent_wins (r1 r2 : SignupAttempt) (e : String) (now : Int)
    (h1e : r1.email = e) (h2e : r2.email = e)
    (h1s : r1.status = "PENDING") (h2s : r2.status = "PENDING")
    (h1w : now - WINDOW_MS ≤ r1.created_at)
    (hlt : r1.created_at < r2.created_at)
    (_hnow : r2.created_at ≤ now) :
    matchAttempt [r1, r2] e now = some r2 ∧
    matchAttempt [r2, r1] e now = some r2 := by
  have h2w : now - WINDOW_MS ≤ r2.created_at := le_trans h1w (le_of_lt hlt)
  have hnlt : ¬ r2.created_at < r1.created_at := not_lt.mpr (le_of_lt hlt)
  constructor
  · simp [matchAttempt, eligibleB, h1e, h2e, h1s, h2s, h1w, h2w, pickLatest,
      laterOf, hlt]
  · simp [matchAttempt, eligibleB, h1e, h2e, h1s, h2s, h1w, h2w, pickLatest,
      laterOf, hnlt]

/-- Witness for most-recent-wins at two concrete attempts created at
1000 and 2000 with a payment at 3000. -/
theorem most_recent_wins_witness :
    matchAttempt [attemptA, attemptB] "user@example.com" 3000 = some attemptB ∧
    matchAttempt [attemptB, attemptA] "user@example.com" 3000 = some attemptB :=
  most_recent_wins attemptA attemptB "user@example.com" 3000 rfl rfl rfl rfl
    (by decide) (by decide) (by decide)

/-- Claim C2 counterexample.  The claim says a 401 on the primary
strategy makes the resolver retry the same lookup with the alternate
auth scheme before the next lookup strategy.  On a network answering
401 to everything, the resolver issues exactly one request, with basic
auth, and fails: there is no alternate-auth retry and no second
strategy. -/
theorem resolver_no_fallback_cex :
    resolvePayment net401 "u1" =
      (Except.error "Recurly API 401",
        [⟨"/api/v2021-02-25/transactions?uuid=u1", AuthScheme.basic⟩]) := by
  rfl

/-- Claim C2 (amended).  The resolver executes a single strategy: one
GET on the transactions-by-uuid path with basic auth.  Any non-2xx
status — 401, 403 and 404 alike — fails the fetch immediately, with no
alternate auth scheme and no further lookup strategy. -/
theorem resolver_single_strategy (net : ApiRequest → ApiResponse)
    (path uuidStr : String) :
    (recurlyFetch net path).2 = [⟨path, AuthScheme.basic⟩] ∧
    (resolvePayment net uuidStr).2 =
      [⟨"/api/v2021-02-25/transactions?uuid=" ++ uuidStr, AuthScheme.basic⟩] ∧
    (respOk (net ⟨path, AuthScheme.basic⟩) = false →
      (recurlyFetch net path).1 =
        Except.error ("Recurly API " ++ toString (net ⟨path, AuthScheme.basic⟩).status)) :=
  ⟨recurlyFetch_trace net path, resolvePayment_trace net uuidStr,
    fun h => recurlyFetch_err net path h⟩

/-- Witness for the single-strategy theorem on the all-401 network. -/
theorem resolver_single_strategy_witness :
    (recurlyFetch net401 "/x").2 = [⟨"/x", AuthScheme.basic⟩] ∧
    respOk (net401 ⟨"/x", AuthScheme.basic⟩) = false ∧
    (recurlyFetch net401 "/x").1 = Except.error "Recurly API 401" := by
  obtain ⟨h1, h2, h3⟩ := resolver_single_strategy net401 "/x" "u1"
  exact ⟨h1, by decide, h3 (by decide)⟩

/-- Claim C3 counterexample.  The claim says the matcher normalizes the
account email (trim, lowercase) before querying, so that a payment
carrying the email with stray spaces and capitals matches the same
pending record as the lower-case one.  In the code there is no
normalization: on a table holding one pending attempt for the
lower-case address, a payment whose account email carries spaces and
capitals attributes to nothing and leaves the table unchanged, while
the already-lower-case payment attributes and marks the record paid. -/
theorem email_normalization_cex :
    (paymentHandler (envOf paymentMixedCase) Method.post (some payloadA)).body =
      "ok (no matching attempt)" ∧
    (paymentHandler (envOf paymentMixedCase) Method.post (some payloadA)).db =
      [attemptA] ∧
    (paymentHandler (envOf paymentLowerCase) Method.post (some payloadA)).body =
      "ok" := by
  refine ⟨?_, ?_, ?_⟩ <;> rfl

/-- Claim C3 (amended).  The matcher queries pending records with the
raw extracted email, without trimming or lowercasing: a matched record
carries exactly the queried email string, and the intake endpoint
stores the submitted email verbatim, so addresses differing in case or
whitespace never meet. -/
theorem email_exact_match :
    (∀ (db : List SignupAttempt) (e : String) (now : Int) (r : SignupAttempt),
      matchAttempt db e now = some r → r.email = e) ∧
    (∀ (b : StartBody) (st : Nat) (row : InsertRow),
      startSignup (some b) none = (st, some row) → some row.email = jsStr b.email) := by
  constructor
  · intro db e now r h
    have h2 := (matchAttempt_mem h).2
    unfold eligibleB at h2
    simp only [Bool.and_eq_true, beq_iff_eq, decide_eq_true_eq] at h2
    exact h2.1.1
  · intro b st row h
    simp only [startSignup, Option.getD] at h
    split at h
    · rename_i s c e hs hc he
      rw [Prod.mk.injEq] at h
      obtain rfl := Option.some.inj h.2
      rw [he]
    · rw [Prod.mk.injEq] at h
      exact absurd h.2 (by simp)

/-- Witness for exact-match: the matcher applied at a concrete table
returns a record whose stored email is the queried string itself. -/
theorem email_exact_match_witness :
    matchAttempt [attemptA] "user@example.com" 3000 = some attemptA ∧
    attemptA.email = "user@example.com" := by
  have h : matchAttempt [attemptA] "user@example.com" 3000 = some attemptA := by decide
  exact ⟨h, email_exact_match.1 [attemptA] "user@example.com" 3000 attemptA h⟩

/-- Claim C1 (confirmed).  Idempotence of attribution: with the event
uuid present and the dedupe read succeeding, an existing attempt whose
recurly_event_id equals the uuid makes the handler acknowledge the
duplicate with 200 and touch nothing; and whenever a run answers the
plain ok body, the table it leaves holds a paid record carrying the
uuid, so submitting the same payload again is acknowledged as a
duplicate and performs no second transition. -/
theorem dedupe_idempotent (env : PEnv) (p : Payload) (u : String)
    (hu : jsStr p.uuid = some u) (hded : env.dedupeErr = none) :
    ((∃ r ∈ env.db, r.recurly_event_id = some u) →
      paymentHandler env Method.post (some p) =
        ⟨200, "ok (duplicate)", env.db, [DbOp.dedupeSelect u], []⟩) ∧
    ((paymentHandler env Method.post (some p)).body = "ok" →
      (∃ r ∈ (paymentHandler env Method.post (some p)).db,
          r.recurly_event_id = some u ∧ r.status = "PAID") ∧
      paymentHandler
          { env with db := (paymentHandler env Method.post (some p)).db }
          Method.post (some p) =
        ⟨200, "ok (duplicate)", (paymentHandler env Method.post (some p)).db,
          [DbOp.dedupeSelect u], []⟩) := by
  have hfind : ∀ db : List SignupAttempt, (∃ r ∈ db, r.recurly_event_id = some u) →
      ∃ x, db.find? (fun r => r.recurly_event_id == some u) = some x := by
    rintro db ⟨r, hr, hru⟩
    have hsome : (db.find? (fun r => r.recurly_event_id == some u)).isSome := by
      rw [List.find?_isSome]
      exact ⟨r, hr, by simp [hru]⟩
    exact Option.isSome_iff_exists.mp hsome
  constructor
  · intro hex
    obtain ⟨x, hx⟩ := hfind env.db hex
    simp [paymentHandler, hu, hded, hx]
  · intro hok
    rcases hfd : env.db.find? (fun r => r.recurly_event_id == some u) with _ | x
    · have hrun : paymentHandler env Method.post (some p) =
          processPayment env p [DbOp.dedupeSelect u] [] := by
        simp [paymentHandler, hu, hded, hfd]
      rw [hrun] at hok ⊢
      obtain ⟨a, ha, i, t, s, am, c, hdb⟩ := processPayment_ok env p _ _ hok
      have hmem : markPaidRow env.now (jsStr p.uuid) i t s am c a ∈
          (processPayment env p [DbOp.dedupeSelect u] []).db := by
        rw [hdb]
        unfold applyUpdate
        have h3 := List.mem_map_of_mem
          (fun r => if r.id = a.id then
            markPaidRow env.now (jsStr p.uuid) i t s am c r else r) ha
        simpa using h3
      have hflds : (markPaidRow env.now (jsStr p.uuid) i t s am c a).recurly_event_id
            = some u ∧
          (markPaidRow env.now (jsStr p.uuid) i t s am c a).status = "PAID" := by
        simp [markPaidRow, hu]
      refine ⟨⟨_, hmem, hflds⟩, ?_⟩
      obtain ⟨x, hx⟩ := hfind _ ⟨_, hmem, hflds.1⟩
      simp [paymentHandler, hu, hded, hx]
    · have hrun : paymentHandler env Method.post (some p) =
          ⟨200, "ok (duplicate)", env.db, [DbOp.dedupeSelect u], []⟩ := by
        simp [paymentHandler, hu, hded, hfd]
      rw [hrun] at hok
      simp at hok

/-- Witness for idempotence: a table already recording event uuid evt1
makes the handler answer the duplicate acknowledgement untouched. -/
theorem dedupe_idempotent_witness :
    jsStr payloadA.uuid = some "evt1" ∧
    paymentHandler envDup Method.post (some payloadA) =
      ⟨200, "ok (duplicate)", [attemptPaid], [DbOp.dedupeSelect "evt1"], []⟩ := by
  refine ⟨by decide, ?_⟩
  exact (dedupe_idempotent envDup payloadA "evt1" (by decide) rfl).1
    ⟨attemptPaid, by simp [envDup], by decide⟩

/-- Claim C9 (confirmed).  Dedupe failure fails open: when the dedupe
read itself errors, the handler logs the warning and runs the rest of
the pipeline exactly as for a fresh event — it neither aborts nor
answers the duplicate acknowledgement, so a persistence read failure
can double-process rather than drop the event. -/
theorem dedupe_fails_open (env : PEnv) (p : Payload) (er u : String)
    (hded : env.dedupeErr = some er) (hu : jsStr p.uuid = some u) :
    paymentHandler env Method.post (some p) =
      processPayment env p [DbOp.dedupeSelect u] ["Dedupe lookup error:"] ∧
    (paymentHandler env Method.post (some p)).body ≠ "ok (duplicate)" ∧
    "Dedupe lookup error:" ∈ (paymentHandler env Method.post (some p)).logs := by
  have hrun : paymentHandler env Method.post (some p) =
      processPayment env p [DbOp.dedupeSelect u] ["Dedupe lookup error:"] := by
    simp [paymentHandler, hu, hded]
  refine ⟨hrun, ?_, ?_⟩
  · rw [hrun]
    exact processPayment_body_ne_dup env p _ _
  · rw [hrun]
    exact processPayment_logs_sub env p _ _ _ (by simp)

/-- Witness for fails-open at a concrete erroring environment whose
table even holds a matchable pending attempt. -/
theorem dedupe_fails_open_witness :
    paymentHandler envDedupeErr Method.post (some payloadA) =
      processPayment envDedupeErr payloadA [DbOp.dedupeSelect "evt1"]
        ["Dedupe lookup error:"] ∧
    (paymentHandler envDedupeErr Method.post (some payloadA)).body ≠ "ok (duplicate)" ∧
    "Dedupe lookup error:" ∈ (paymentHandler envDedupeErr Method.post (some payloadA)).logs :=
  dedupe_fails_open envDedupeErr payloadA "read failed" "evt1" rfl (by decide)

/-- Claim C4 counterexample.  The claim says malformed payload is the
only case surfaced as a non-200 response.  The subscription ingress
handler of the repository answers 500 to a POST whose body is a
perfectly well-formed object whenever the Supabase configuration is
missing — a non-200 response for a non-malformed request. -/
theorem response_contract_cex :
    subHandler sEnvNoConfig Method.post none (some subPayloadA) =
      ⟨500, "Missing Supabase env vars", [], []⟩ := by
  rfl

/-- Claim C4 (amended).  For the payment webhook handler the contract
holds: a POST whose body is not valid JSON is answered 400, and every
POST with a parseable body is answered 200, whatever failure the
pipeline meets.  The subscription ingress handler additionally answers
500 to any POST when the Supabase configuration is missing, and 200
otherwise, even for non-object bodies. -/
theorem response_contract :
    (∀ env : PEnv, (paymentHandler env Method.post none).status = 400) ∧
    (∀ (env : PEnv) (p : Payload),
      (paymentHandler env Method.post (some p)).status = 200) ∧
    (∀ (env : SEnv) (dq : Option String) (b : Option SubPayload),
      (subHandler env Method.post dq b).status =
        if env.envOk = true then 200 else 500) := by
  refine ⟨fun env => rfl, fun env p => ?_, fun env dq b => ?_⟩
  · simp only [paymentHandler]
    split
    · split
      · apply processPayment_status
      · split
        · rfl
        · apply processPayment_status
    · apply processPayment_status
  · cases henv : env.envOk with
    | false => simp [subHandler, henv]
    | true =>
      simp only [subHandler, henv]
      simp only [reduceCtorEq, ne_eq, false_and, if_false, Bool.true_eq_false,
        or_self, not_true_eq_false, not_false_eq_true, if_true, if_neg,
        Bool.false_eq_true]
      (repeat' split) <;> rfl

/-- Claim C7 (confirmed).  Partial-identity guard of the subscription
pipeline: with the fetch succeeding, no upsert into subscriptions ever
executes when the resolved email or plan code is missing, whatever else
is populated; the handler logs the skip and still answers 200. -/
theorem identity_guard_upsert (env : SEnv) (dq : Option String) (p : SubPayload)
    (sub : Subscription) (u : String)
    (henv : env.envOk = true) (hu : jsStr p.uuid = some u)
    (hf : env.subFetch = Except.ok sub)
    (hmiss :
      jsOr (sub.account.bind SubAccount.email)
        ((sub.account.bind SubAccount.bill_to).bind BillTo.email) = none ∨
      jsStr (sub.plan.bind PlanRef.code) = none) :
    (subHandler env Method.post dq (some p)).ops.filter DbOp.isUpsert = [] ∧
    (subHandler env Method.post dq (some p)).status = 200 ∧
    "### SKIP_UPSERT missing provider_subscription_id/email/plan_code" ∈
      (subHandler env Method.post dq (some p)).logs := by
  rcases hpc : jsStr (sub.plan.bind PlanRef.code) with _ | pc
  · simp [subHandler, henv, hu, hf, hpc, DbOp.isUpsert]
  · rcases hmiss with hm | hm
    · rcases hpsid : jsOr sub.uuid (some u) with _ | pv <;>
        simp [subHandler, henv, hu, hf, hpc, hm, hpsid, DbOp.isUpsert]
    · rw [hpc] at hm
      exact absurd hm (by simp)

/-- Witness for the partial-identity guard at a subscription whose plan
carries no code while every other field is populated. -/
theorem identity_guard_upsert_witness :
    (subHandler sEnvNoPlan Method.post none (some subPayloadA)).ops.filter
        DbOp.isUpsert = [] ∧
    (subHandler sEnvNoPlan Method.post none (some subPayloadA)).status = 200 ∧
    "### SKIP_UPSERT missing provider_subscription_id/email/plan_code" ∈
      (subHandler sEnvNoPlan Method.post none (some subPayloadA)).logs :=
  identity_guard_upsert sEnvNoPlan none subPayloadA subNoPlan "subuuid1"
    rfl (by decide) rfl (Or.inr (by decide))

/-- Claim C10 (confirmed).  Shop resolution is not a skip condition:
when the shops lookup finds no row for the plan code (or errors, which
leaves the row null), the upsert still executes with shop_id null, as
long as subscription id, email and plan code are present. -/
theorem shop_lookup_not_skip (env : SEnv) (dq : Option String) (p : SubPayload)
    (sub : Subscription) (u pc em psidV : String)
    (henv : env.envOk = true) (hu : jsStr p.uuid = some u)
    (hf : env.subFetch = Except.ok sub)
    (hpc : jsStr (sub.plan.bind PlanRef.code) = some pc)
    (hem : jsOr (sub.account.bind SubAccount.email)
      ((sub.account.bind SubAccount.bill_to).bind BillTo.email) = some em)
    (hpsid : jsOr sub.uuid (some u) = some psidV)
    (hshop : (if env.shopLookupFails then none
      else env.shops.find? (fun s => s.plan_code == pc)) = none)
    (hup : env.upsertErr = none) :
    subHandler env Method.post dq (some p) =
      ⟨200, "ok",
        [DbOp.webhookEventInsert, DbOp.shopSelect pc,
          DbOp.subscriptionUpsert
            ⟨"recurly", psidV, jsStr (sub.account.bind SubAccount.code), em, pc,
              none,
              (jsOr (jsOr sub.state sub.status) (some "active")).getD "active",
              jsOr sub.current_period_ends_at sub.current_term_ends_at, env.now⟩],
        ["### UPSERT_OK"]⟩ := by
  simp [subHandler, henv, hu, hf, hpc, hem, hpsid, hup, hshop, jsStr_none]

/-- Witness for shop-not-a-skip on an empty shops table: the upsert row
is written with shop_id null. -/
theorem shop_lookup_not_skip_witness :
    subHandler sEnvNoShop Method.post none (some subPayloadA) =
      ⟨200, "ok",
        [DbOp.webhookEventInsert, DbOp.shopSelect "plan9",
          DbOp.subscriptionUpsert
            ⟨"recurly", "su1", some "acct1", "user@example.com", "plan9", none,
              "active", some "2026-01-01", 99⟩],
        ["### UPSERT_OK"]⟩ :=
  shop_lookup_not_skip sEnvNoShop none subPayloadA subFull "subuuid1" "plan9"
    "user@example.com" "su1" rfl (by decide) rfl (by decide) (by decide)
    (by decide) (by decide) rfl

/-- Claim C8 counterexample.  The claim says every inbound POST has its
raw event persisted to the audit store before the dedupe check, and 200
is only returned once the raw event is logged.  A complete, successful
run of the payment handler answers 200 with body ok yet its database
trace holds no webhook_events insert at all: the payment handler never
writes the audit store. -/
theorem audit_write_cex :
    (paymentHandler (envOf paymentLowerCase) Method.post (some payloadA)).status
      = 200 ∧
    (paymentHandler (envOf paymentLowerCase) Method.post (some payloadA)).body
      = "ok" ∧
    DbOp.webhookEventInsert ∉
      (paymentHandler (envOf paymentLowerCase) Method.post (some payloadA)).ops := by
  refine ⟨rfl, rfl, by decide⟩

/-- Claim C8 (amended).  Only the subscription ingress handler persists
the raw event: for every POST with the persistence configured, its
first database operation is the webhook_events insert, before any
downstream processing; the payment handler performs no raw-event audit
write on any request. -/
theorem audit_write_order :
    (∀ (env : SEnv) (dq : Option String) (b : Option SubPayload),
      (subHandler env Method.post dq b).ops.head? =
        if env.envOk = true then some DbOp.webhookEventInsert else none) ∧
    (∀ (env : PEnv) (m : Method) (b : Option Payload),
      DbOp.webhookEventInsert ∉ (paymentHandler env m b).ops) := by
  constructor
  · intro env dq b
    cases henv : env.envOk with
    | false => simp [subHandler, henv]
    | true =>
      simp only [subHandler, henv]
      simp only [reduceCtorEq, ne_eq, false_and, if_false, Bool.true_eq_false,
        or_self, not_true_eq_false, not_false_eq_true, if_true, if_neg,
        Bool.false_eq_true]
      (repeat' split) <;> rfl
  · intro env m b
    cases m with
    | post =>
      cases b with
      | none => simp [paymentHandler]
      | some p =>
        simp only [paymentHandler]
        split
        · split
          · exact processPayment_no_audit _ _ _ _ (by simp)
          · split
            · simp
            · exact processPayment_no_audit _ _ _ _ (by simp)
        · exact processPayment_no_audit _ _ _ _ (by simp)
    | get => simp [paymentHandler]
    | options => simp [paymentHandler]
    | head => simp [paymentHandler]
    | other s => simp [paymentHandler]

end Meatlaunch
